import Mathlib

/-! Shallow embedding of the tianyi_api router client (src/src/lib.rs): the
data model, the request construction of every operation, token extraction at
login, and the port-forwarding update algorithm. Network transport is modelled
by explicit response oracles, the thread-local random generator by a stream of
stringified draws indexed by a counter. -/

namespace TianyiApi

/-- Error taxonomy of the library: transport failures propagated from the HTTP
layer, and the authentication failure raised when no token can be extracted
from the login response. -/
inductive TianyiError where
  | transport (msg : String)
  | authentication (msg : String)
  deriving DecidableEq

/-- Mirrors struct PortForwardingRule of src/src/lib.rs: protocol, inPort,
enable flag, description, client address, exPort. -/
structure PortForwardingRule where
  protocol : String
  in_port : Nat
  enable : Nat
  description : String
  client : String
  ex_port : Nat
  deriving DecidableEq

/-- Mirrors enum PortForwardingAction of src/src/lib.rs. -/
inductive PortForwardingAction where
  | Add
  | Enable
  | Disable
  | Delete
  deriving DecidableEq

/-- Mirrors PortForwardingAction::as_str of src/src/lib.rs. -/
def PortForwardingAction.as_str : PortForwardingAction → String
  | .Add => "add"
  | .Enable => "enable"
  | .Disable => "disable"
  | .Delete => "del"

/-- The single-quote character, written by code point because it delimits the
captured token in the login-response pattern of Tianyi::new. -/
def squote : Char := Char.ofNat 39

/-- The character class of the capture group in the regex of Tianyi::new:
lowercase letters a to z and digits 0 to 9. -/
def isLowerAlnum (c : Char) : Bool :=
  (97 ≤ c.toNat && c.toNat ≤ 122) || (48 ≤ c.toNat && c.toNat ≤ 57)

/-- The lowercase hexadecimal character class named by the specification:
letters a to f and digits 0 to 9. -/
def isLowerHex (c : Char) : Bool :=
  (97 ≤ c.toNat && c.toNat ≤ 102) || (48 ≤ c.toNat && c.toNat ≤ 57)

/-- The literal prefix of the token pattern: the characters of
token-colon-space followed by the opening single quote. -/
def tokenLit : List Char :=
  't' :: 'o' :: 'k' :: 'e' :: 'n' :: ':' :: ' ' :: squote :: []

/-- Match a literal character list at the front of the input, returning the
remainder on success. -/
def matchLit : List Char → List Char → Option (List Char)
  | [], s => some s
  | _ :: _, [] => none
  | c :: cs, d :: ds => if c = d then matchLit cs ds else none

/-- Take exactly n characters of class p from the front of the input,
returning them with the remainder. -/
def takeClass (p : Char → Bool) : Nat → List Char → Option (List Char × List Char)
  | 0, s => some ([], s)
  | _ + 1, [] => none
  | n + 1, c :: cs =>
    if p c then
      match takeClass p n cs with
      | some (tok, rest) => some (c :: tok, rest)
      | none => none
    else none

/-- Match the whole token pattern at the front of the input for character
class p: the literal prefix, exactly 32 class characters (the capture), and
the closing single quote. Returns the capture. -/
def matchTokenAt (p : Char → Bool) (s : List Char) : Option (List Char) :=
  match matchLit tokenLit s with
  | none => none
  | some rest =>
    match takeClass p 32 rest with
    | none => none
    | some (tok, rest2) =>
      match rest2 with
      | [] => none
      | c :: _ => if c = squote then some tok else none

/-- Leftmost match of the token pattern over the whole input, as the regex
captures method of Tianyi::new finds it: try every start position from the
left and return the first capture. -/
def extractToken (p : Char → Bool) : List Char → Option (List Char)
  | [] => none
  | c :: rest =>
    match matchTokenAt p (c :: rest) with
    | some tok => some tok
    | none => extractToken p rest

/-- Token extraction exactly as Tianyi::new performs it: the capture class is
lowercase alphanumeric. -/
def extractTokenCode (s : List Char) : Option (List Char) :=
  extractToken isLowerAlnum s

/-- Token extraction as the specification words it: a fixed lowercase-hex
32-character pattern. Stated only to compare the spec against the code. -/
def extractTokenSpecHex (s : List Char) : Option (List Char) :=
  extractToken isLowerHex s

/-- Configuration the reqwest client is built with in Tianyi::new: an HTTP
proxy address and the cookie-store switch. -/
structure ClientConfig where
  httpProxy : Option String
  cookieStore : Bool
  deriving DecidableEq

/-- The client configuration Tianyi::new hardcodes: proxy
http 127.0.0.1 port 8083, cookie store enabled. -/
def newClientConfig : ClientConfig :=
  { httpProxy := some "http://127.0.0.1:8083", cookieStore := true }

/-- A GET request as the client issues it: URL and query parameters. -/
structure GetRequest where
  url : String
  query : List (String × String)
  deriving DecidableEq

/-- A POST request as the client issues it: URL and form parameters. -/
structure PostRequest where
  url : String
  form : List (String × String)
  deriving DecidableEq

/-- The login request Tianyi::new sends: built on the configured client,
POSTed to the luci endpoint with the username and psd form fields. -/
structure LoginRequest where
  config : ClientConfig
  url : String
  form : List (String × String)
  deriving DecidableEq

/-- Mirrors the request construction of Tianyi::new. -/
def loginRequest (ip username password : String) : LoginRequest :=
  { config := newClientConfig
    url := "http://" ++ ip ++ "/cgi-bin/luci"
    form := [("username", username), ("psd", password)] }

/-- Mirrors struct Tianyi of src/src/lib.rs: the base URL, the extracted
token, and the client whose observable configuration we keep. -/
structure Tianyi where
  url : String
  token : String
  config : ClientConfig
  deriving DecidableEq

/-- Mirrors Tianyi::new given the login response: on a received body, extract
the token by the leftmost regex match; absent a match, fail with the
authentication error whose context is the Failed-to-parse-token message. -/
def Tianyi.new (ip username password : String)
    (respond : LoginRequest → Except TianyiError (List Char)) :
    Except TianyiError Tianyi :=
  match respond (loginRequest ip username password) with
  | .error e => .error e
  | .ok text =>
    match extractTokenCode text with
    | some tok =>
      .ok { url := "http://" ++ ip, token := String.mk tok, config := newClientConfig }
    | none => .error (.authentication "Failed to parse token")

/-- Mirrors struct TianyiBuilder of src/src/lib.rs. -/
structure TianyiBuilder where
  ip : String
  username : String
  password : String
  deriving DecidableEq

/-- Mirrors TianyiBuilder::default and TianyiBuilder::new. -/
def TianyiBuilder.new : TianyiBuilder :=
  { ip := "192.168.1.1", username := "useradmin", password := "" }

/-- Mirrors the ip setter of TianyiBuilder. -/
def TianyiBuilder.setIp (b : TianyiBuilder) (v : String) : TianyiBuilder :=
  { b with ip := v }

/-- Mirrors the username setter of TianyiBuilder. -/
def TianyiBuilder.setUsername (b : TianyiBuilder) (v : String) : TianyiBuilder :=
  { b with username := v }

/-- Mirrors the password setter of TianyiBuilder. -/
def TianyiBuilder.setPassword (b : TianyiBuilder) (v : String) : TianyiBuilder :=
  { b with password := v }

/-- Mirrors TianyiBuilder::build: delegates to Tianyi::new with the three
stored fields. -/
def TianyiBuilder.build (b : TianyiBuilder)
    (respond : LoginRequest → Except TianyiError (List Char)) :
    Except TianyiError Tianyi :=
  Tianyi.new b.ip b.username b.password respond

/-- The login request TianyiBuilder::build causes Tianyi::new to send. -/
def TianyiBuilder.buildRequest (b : TianyiBuilder) : LoginRequest :=
  loginRequest b.ip b.username b.password

/-- Mirrors struct GatewayInfo of src/src/lib.rs. -/
structure GatewayInfo where
  lan_ip : String
  lan_ipv6 : String
  mac : String
  wan_ip : String
  wan_ipv6 : String
  product_sn : String
  dev_type : String
  sw_ver : String
  product_cls : String
  deriving DecidableEq

/-- Mirrors struct PortForwardingData of src/src/lib.rs: the flattened map of
server rule identifiers to rules is kept as an association list in the order
the map iterates. -/
structure PortForwardingData where
  mask : String
  lan_ip : String
  count : Nat
  rules : List (String × PortForwardingRule)
  deriving DecidableEq

/-- Mirrors struct ActionResult of src/src/lib.rs; retVal is the i32 the
router returns, passed through without interpretation. -/
structure ActionResult where
  ret_val : Int
  deriving DecidableEq

/-- An HTTP response as logout observes it: status code and body. -/
structure Response where
  status : Nat
  body : List Char
  deriving DecidableEq

/-- Mirrors StatusCode::is_success of the HTTP layer: 200 to 299. -/
def is_success (status : Nat) : Bool :=
  200 ≤ status && status ≤ 299

/-- Mirrors Tianyi::rand_str: one pseudo-random f64 draw, stringified. The
thread-local generator is modelled by a stream of stringified draws and a
counter; each call returns the draw at the counter and advances it. -/
def rand_str (stream : Nat → String) (k : Nat) : String × Nat :=
  (stream k, k + 1)

/-- The GET request Tianyi::gwinfo sends, given the stringified draw. -/
def gwinfo_request (t : Tianyi) (r : String) : GetRequest :=
  { url := t.url ++ "/cgi-bin/luci/admin/settings/gwinfo"
    query := [("get", "part"), ("_", r)] }

/-- Mirrors Tianyi::gwinfo: draw the cache buster, issue the GET, return the
parsed gateway info with the unchanged session and the advanced counter. -/
def gwinfo (t : Tianyi) (stream : Nat → String) (k : Nat)
    (respond : GetRequest → Except TianyiError GatewayInfo) :
    Except TianyiError GatewayInfo × Tianyi × Nat :=
  let (r, k2) := rand_str stream k
  (respond (gwinfo_request t r), t, k2)

/-- The GET request Tianyi::port_forwarding sends, given the draw. -/
def port_forwarding_request (t : Tianyi) (r : String) : GetRequest :=
  { url := t.url ++ "/cgi-bin/luci/admin/settings/pmDisplay"
    query := [("_", r)] }

/-- Mirrors Tianyi::port_forwarding. -/
def port_forwarding (t : Tianyi) (stream : Nat → String) (k : Nat)
    (respond : GetRequest → Except TianyiError PortForwardingData) :
    Except TianyiError PortForwardingData × Tianyi × Nat :=
  let (r, k2) := rand_str stream k
  (respond (port_forwarding_request t r), t, k2)

/-- The rule list as Tianyi::get_port_forwarding_rules extracts it from the
snapshot: the values of the rules map, identifiers dropped. -/
def rulesOf (d : PortForwardingData) : List PortForwardingRule :=
  d.rules.map (fun kv => kv.2)

/-- Mirrors Tianyi::get_port_forwarding_rules: fetch the snapshot and keep
the rules. -/
def get_port_forwarding_rules (t : Tianyi) (stream : Nat → String) (k : Nat)
    (respond : GetRequest → Except TianyiError PortForwardingData) :
    Except TianyiError (List PortForwardingRule) × Tianyi × Nat :=
  match port_forwarding t stream k respond with
  | (.error e, t2, k2) => (.error e, t2, k2)
  | (.ok d, t2, k2) => (.ok (rulesOf d), t2, k2)

/-- The POST request Tianyi::set_port_forwarding_rule sends: srvname, token,
op and cache buster always; client, protocol, exPort and inPort only when a
rule payload is present. -/
def set_rule_request (t : Tianyi) (action : PortForwardingAction)
    (srvname : String) (rule : Option PortForwardingRule) (r : String) :
    PostRequest :=
  { url := t.url ++ "/cgi-bin/luci/admin/settings/pmSetSingle"
    form := [("srvname", srvname), ("token", t.token), ("op", action.as_str), ("_", r)]
      ++ (match rule with
          | none => []
          | some ru =>
            [("client", ru.client), ("protocol", ru.protocol),
             ("exPort", toString ru.ex_port), ("inPort", toString ru.in_port)]) }

/-- Mirrors Tianyi::set_port_forwarding_rule: draw the cache buster, POST the
form, return the parsed ActionResult as received. -/
def set_port_forwarding_rule (t : Tianyi) (stream : Nat → String) (k : Nat)
    (respond : PostRequest → Except TianyiError ActionResult)
    (action : PortForwardingAction) (srvname : String)
    (rule : Option PortForwardingRule) :
    Except TianyiError ActionResult × Tianyi × Nat :=
  let (r, k2) := rand_str stream k
  (respond (set_rule_request t action srvname rule r), t, k2)

/-- The POST request Tianyi::logout sends, given the draw. -/
def logout_request (t : Tianyi) (r : String) : PostRequest :=
  { url := t.url ++ "/cgi-bin/luci/admin/logout"
    form := [("token", t.token), ("_", r)] }

/-- Mirrors Tianyi::logout: POST the token and cache buster; Ok when the
status is a success status, the Failed-to-logout error otherwise. The body
is never read. -/
def logout (t : Tianyi) (stream : Nat → String) (k : Nat)
    (respond : PostRequest → Except TianyiError Response) :
    Except TianyiError Unit × Tianyi × Nat :=
  let (r, k2) := rand_str stream k
  match respond (logout_request t r) with
  | .error e => (.error e, t, k2)
  | .ok resp =>
    if is_success resp.status then (.ok (), t, k2)
    else (.error (.transport "Failed to logout"), t, k2)

/-- One invocation of set_port_forwarding_rule as update issues it: the
action, the srvname argument, and the optional rule payload. -/
abbrev SetCall := PortForwardingAction × String × Option PortForwardingRule

/-- The first loop of Tianyi::update_port_forwarding_rule: walk the rules;
for every rule whose client equals old_ip, push the copy with client set to
new_ip and issue the delete with the rule's own description and original
fields; stop at the first error. Returns the accumulated copies, the counter
and the calls issued. -/
def update_delete_phase (t : Tianyi) (stream : Nat → String)
    (respond : PostRequest → Except TianyiError ActionResult)
    (old_ip new_ip : String) :
    List PortForwardingRule → Nat →
      Except TianyiError (List PortForwardingRule) × Nat × List SetCall
  | [], k => (.ok [], k, [])
  | rule :: rest, k =>
    if rule.client == old_ip then
      let updated_rule := { rule with client := new_ip }
      let call : SetCall := (.Delete, rule.description, some rule)
      match set_port_forwarding_rule t stream k respond .Delete rule.description (some rule) with
      | (.error e, _, k2) => (.error e, k2, [call])
      | (.ok _, _, k2) =>
        match update_delete_phase t stream respond old_ip new_ip rest k2 with
        | (.error e, k3, calls) => (.error e, k3, call :: calls)
        | (.ok ur, k3, calls) => (.ok (updated_rule :: ur), k3, call :: calls)
    else update_delete_phase t stream respond old_ip new_ip rest k

/-- The second loop of Tianyi::update_port_forwarding_rule: issue an add for
every accumulated updated rule, with its description and payload; stop at
the first error. -/
def update_add_phase (t : Tianyi) (stream : Nat → String)
    (respond : PostRequest → Except TianyiError ActionResult) :
    List PortForwardingRule → Nat → Except TianyiError Unit × Nat × List SetCall
  | [], k => (.ok (), k, [])
  | u :: rest, k =>
    let call : SetCall := (.Add, u.description, some u)
    match set_port_forwarding_rule t stream k respond .Add u.description (some u) with
    | (.error e, _, k2) => (.error e, k2, [call])
    | (.ok _, _, k2) =>
      match update_add_phase t stream respond rest k2 with
      | (res, k3, calls) => (res, k3, call :: calls)

/-- What a run of update_port_forwarding_rule yields: the result, the session
after the run, the counter, and the set_port_forwarding_rule calls issued in
order. -/
structure UpdateOutcome where
  result : Except TianyiError Unit
  session : Tianyi
  rng : Nat
  calls : List SetCall

/-- Mirrors Tianyi::update_port_forwarding_rule: fetch the rule list, run the
delete loop over it, then the add loop over the updated copies. -/
def update_port_forwarding_rule (t : Tianyi) (stream : Nat → String) (k : Nat)
    (fetch : GetRequest → Except TianyiError PortForwardingData)
    (respond : PostRequest → Except TianyiError ActionResult)
    (old_ip new_ip : String) : UpdateOutcome :=
  match get_port_forwarding_rules t stream k fetch with
  | (.error e, _, k1) => { result := .error e, session := t, rng := k1, calls := [] }
  | (.ok rules, _, k1) =>
    match update_delete_phase t stream respond old_ip new_ip rules k1 with
    | (.error e, k2, calls) => { result := .error e, session := t, rng := k2, calls := calls }
    | (.ok updated_rules, k2, dcalls) =>
      match update_add_phase t stream respond updated_rules k2 with
      | (res, k3, acalls) =>
        { result := res, session := t, rng := k3, calls := dcalls ++ acalls }

/-- Thirty-two letters z: matched by the alphanumeric class of the code, not
by the lowercase-hex class of the specification. -/
def zChars : List Char := List.replicate 32 'z'

/-- Thirty-two digits 0: matched by both character classes. -/
def hexChars : List Char := List.replicate 32 '0'

/-- A login body whose leftmost alphanumeric token capture is zChars while
its leftmost lowercase-hex capture is hexChars. -/
def cexBody : List Char :=
  tokenLit ++ zChars ++ (squote :: ' ' :: tokenLit) ++ hexChars ++ [squote]

/-- A login body holding one token of letters z only: the alphanumeric
pattern matches, the lowercase-hex pattern does not. -/
def zBody : List Char := tokenLit ++ zChars ++ [squote]

/-- A login body matched by both patterns, used as a concrete witness. -/
def hexBody : List Char := tokenLit ++ hexChars ++ [squote]

/-- A concrete session used by witnesses. -/
def tSample : Tianyi :=
  { url := "http://192.168.1.1", token := String.mk hexChars, config := newClientConfig }

/-- A concrete random stream used by witnesses. -/
def sampleStream : Nat → String := fun _ => "0.5"

/-- A concrete success response used by witnesses. -/
def respSample : Response := { status := 200, body := [] }

/-- A concrete rule used by witnesses, the rule of the example scenario of
the specification. -/
def webRule : PortForwardingRule :=
  { protocol := "tcp", in_port := 80, enable := 1, description := "web",
    client := "192.168.1.11", ex_port := 8080 }

/-- A concrete snapshot holding only webRule, used by witnesses. -/
def sampleData : PortForwardingData :=
  { mask := "255.255.255.0", lan_ip := "192.168.1.1", count := 1,
    rules := [("rule1", webRule)] }

/-- Claim C7: the action encoding maps Add to "add", Enable to "enable",
Disable to "disable" and Delete to "del"; the mapping is injective and its
range is exactly these four wire strings, so no other wire string is
reachable from the closed four-variant selector. -/
theorem action_encoding_exact :
    PortForwardingAction.as_str .Add = "add" ∧
    PortForwardingAction.as_str .Enable = "enable" ∧
    PortForwardingAction.as_str .Disable = "disable" ∧
    PortForwardingAction.as_str .Delete = "del" ∧
    (∀ a b : PortForwardingAction, a.as_str = b.as_str → a = b) ∧
    (∀ a : PortForwardingAction,
      a.as_str = "add" ∨ a.as_str = "enable" ∨
        a.as_str = "disable" ∨ a.as_str = "del") := by
  refine ⟨rfl, rfl, rfl, rfl, ?_, ?_⟩
  · intro a b h
    cases a <;> cases b <;> first | rfl | exact absurd h (by decide)
  · intro a
    cases a
    · exact Or.inl rfl
    · exact Or.inr (Or.inl rfl)
    · exact Or.inr (Or.inr (Or.inl rfl))
    · exact Or.inr (Or.inr (Or.inr rfl))

/-! Shared lemmas about the token scanner and session construction. -/

theorem matchTokenAt_nil (p : Char → Bool) : matchTokenAt p [] = none := rfl

theorem extractToken_isSome_of_match (p : Char → Bool) (l : List Char)
    (h : ∃ i, (matchTokenAt p (l.drop i)).isSome = true) :
    (extractToken p l).isSome = true := by
  induction l with
  | nil =>
    obtain ⟨i, hi⟩ := h
    rw [List.drop_nil, matchTokenAt_nil] at hi
    exact absurd hi (by decide)
  | cons c rest ih =>
    cases hm : matchTokenAt p (c :: rest) with
    | some tok => simp [extractToken, hm]
    | none =>
      simp only [extractToken, hm]
      apply ih
      obtain ⟨i, hi⟩ := h
      cases i with
      | zero => rw [List.drop_zero, hm] at hi; exact absurd hi (by decide)
      | succ j => exact ⟨j, by rw [List.drop_succ_cons] at hi; exact hi⟩

theorem extractToken_exists_match (p : Char → Bool) (l : List Char) (tok : List Char)
    (h : extractToken p l = some tok) :
    ∃ i, matchTokenAt p (l.drop i) = some tok := by
  induction l with
  | nil => exact absurd h (by simp [extractToken])
  | cons c rest ih =>
    cases hm : matchTokenAt p (c :: rest) with
    | some t =>
      refine ⟨0, ?_⟩
      rw [List.drop_zero, hm]
      simp only [extractToken, hm] at h
      exact h.symm ▸ rfl
    | none =>
      simp only [extractToken, hm] at h
      obtain ⟨i, hi⟩ := ih h
      exact ⟨i + 1, by rw [List.drop_succ_cons]; exact hi⟩

theorem extractToken_none_of_no_match (p : Char → Bool) (l : List Char)
    (h : ∀ i, matchTokenAt p (l.drop i) = none) :
    extractToken p l = none := by
  induction l with
  | nil => rfl
  | cons c rest ih =>
    have h0 := h 0
    rw [List.drop_zero] at h0
    simp only [extractToken, h0]
    exact ih (fun i => by have := h (i + 1); rwa [List.drop_succ_cons] at this)

theorem new_of_extract_some (ip username password : String) (body tok : List Char)
    (respond : LoginRequest → Except TianyiError (List Char))
    (hr : respond (loginRequest ip username password) = .ok body)
    (h : extractTokenCode body = some tok) :
    Tianyi.new ip username password respond =
      .ok { url := "http://" ++ ip, token := String.mk tok, config := newClientConfig } := by
  unfold Tianyi.new
  simp only [hr, h]

theorem new_of_extract_none (ip username password : String) (body : List Char)
    (respond : LoginRequest → Except TianyiError (List Char))
    (hr : respond (loginRequest ip username password) = .ok body)
    (h : extractTokenCode body = none) :
    Tianyi.new ip username password respond =
      .error (.authentication "Failed to parse token") := by
  unfold Tianyi.new
  simp only [hr, h]

/-! The claims. -/

/-- Claim C2: session construction hardcodes the HTTP proxy address
http 127.0.0.1 port 8083 into the client configuration for every ip,
username and password triple; every client a successful construction
returns carries that configuration on which all its operations run, and no
builder setter can change it. -/
theorem proxy_hardcoded :
    (∀ ip username password : String,
      (loginRequest ip username password).config.httpProxy =
        some "http://127.0.0.1:8083") ∧
    (∀ (ip username password : String)
        (respond : LoginRequest → Except TianyiError (List Char)) (t : Tianyi),
      Tianyi.new ip username password respond = .ok t →
      t.config.httpProxy = some "http://127.0.0.1:8083") ∧
    (∀ b : TianyiBuilder, b.buildRequest.config = TianyiBuilder.new.buildRequest.config) ∧
    (∀ (b : TianyiBuilder) (v : String),
      ((b.setIp v).buildRequest).config = b.buildRequest.config) ∧
    (∀ (b : TianyiBuilder) (v : String),
      ((b.setUsername v).buildRequest).config = b.buildRequest.config) ∧
    (∀ (b : TianyiBuilder) (v : String),
      ((b.setPassword v).buildRequest).config = b.buildRequest.config) := by
  refine ⟨fun _ _ _ => rfl, ?_, fun _ => rfl, fun _ _ => rfl, fun _ _ => rfl, fun _ _ => rfl⟩
  intro ip username password respond t h
  unfold Tianyi.new at h
  split at h
  · exact Except.noConfusion h
  · split at h
    · cases h
      rfl
    · exact Except.noConfusion h

/-- Claim C3, counterexample: cexBody contains a substring matching the
lowercase-hex token pattern of the claim, whose capture is hexChars, and
session construction succeeds; yet the returned token is the alphanumeric
capture zChars of an earlier non-hex match, not the hex capture, so the
claim as worded is false on cexBody. -/
theorem token_hex_pattern_counterexample :
    matchTokenAt isLowerHex (cexBody.drop 42) = some hexChars ∧
    extractTokenSpecHex cexBody = some hexChars ∧
    Tianyi.new "192.168.1.1" "useradmin" "" (fun _ => .ok cexBody) =
      .ok { url := "http://192.168.1.1", token := String.mk zChars,
            config := newClientConfig } ∧
    String.mk zChars ≠ String.mk hexChars := by
  exact ⟨by decide, by decide, rfl, by decide⟩

/-- Claim C3, amended: the capture class of the fixed pattern is lowercase
alphanumeric, not lowercase hex. For every login body containing a substring
matching the alphanumeric token pattern, session construction succeeds and
the returned token is the leftmost capture. -/
theorem token_extraction_amended (ip username password : String) (body : List Char)
    (h : ∃ i, (matchTokenAt isLowerAlnum (body.drop i)).isSome = true) :
    ∃ tok, extractTokenCode body = some tok ∧
      Tianyi.new ip username password (fun _ => .ok body) =
        .ok { url := "http://" ++ ip, token := String.mk tok,
              config := newClientConfig } := by
  have hs : (extractTokenCode body).isSome = true :=
    extractToken_isSome_of_match isLowerAlnum body h
  obtain ⟨tok, htok⟩ := Option.isSome_iff_exists.mp hs
  exact ⟨tok, htok, new_of_extract_some ip username password body tok _ rfl htok⟩

/-- Witness for the amended claim C3 at the concrete body hexBody. -/
theorem token_extraction_amended_witness :
    ∃ tok, extractTokenCode hexBody = some tok ∧
      Tianyi.new "192.168.1.1" "useradmin" "" (fun _ => .ok hexBody) =
        .ok { url := "http://" ++ "192.168.1.1", token := String.mk tok,
              config := newClientConfig } :=
  token_extraction_amended "192.168.1.1" "useradmin" "" hexBody ⟨0, by decide⟩

/-- Claim C4, counterexample: zBody contains no substring matching the
lowercase-hex token pattern of the claim at any position, yet session
construction succeeds and produces a client, instead of failing with the
authentication error. -/
theorem no_hex_match_counterexample :
    extractTokenSpecHex zBody = none ∧
    (∀ i, matchTokenAt isLowerHex (zBody.drop i) = none) ∧
    Tianyi.new "192.168.1.1" "useradmin" "" (fun _ => .ok zBody) =
      .ok { url := "http://192.168.1.1", token := String.mk zChars,
            config := newClientConfig } := by
  refine ⟨by decide, ?_, rfl⟩
  intro i
  cases hm : matchTokenAt isLowerHex (zBody.drop i) with
  | none => rfl
  | some tok =>
    have : (extractTokenSpecHex zBody).isSome = true :=
      extractToken_isSome_of_match isLowerHex zBody ⟨i, by rw [hm]; rfl⟩
    rw [show extractTokenSpecHex zBody = none from by decide] at this
    exact absurd this (by decide)

/-- Claim C4, amended: with the capture class corrected to lowercase
alphanumeric: for every login body containing no substring matching the
token pattern at any position, session construction fails with the
authentication error and no client is produced. -/
theorem missing_token_auth_error_amended (ip username password : String)
    (body : List Char)
    (h : ∀ i, matchTokenAt isLowerAlnum (body.drop i) = none) :
    Tianyi.new ip username password (fun _ => .ok body) =
      .error (.authentication "Failed to parse token") :=
  new_of_extract_none ip username password body _ rfl
    (extractToken_none_of_no_match isLowerAlnum body h)

/-- Witness for the amended claim C4 at the concrete empty body. -/
theorem missing_token_auth_error_amended_witness :
    Tianyi.new "192.168.1.1" "useradmin" "" (fun _ => .ok []) =
      .error (.authentication "Failed to parse token") :=
  missing_token_auth_error_amended "192.168.1.1" "useradmin" "" []
    (fun i => by rw [List.drop_nil, matchTokenAt_nil])

/-! The update algorithm: what each loop issues when every mutation call
succeeds, and when no rule matches. -/

theorem update_delete_phase_all_ok (t : Tianyi) (stream : Nat → String)
    (ans : PostRequest → ActionResult) (old_ip new_ip : String)
    (rules : List PortForwardingRule) (k : Nat) :
    update_delete_phase t stream (fun q => .ok (ans q)) old_ip new_ip rules k =
      (.ok ((rules.filter (fun r => r.client == old_ip)).map
              (fun r => { r with client := new_ip })),
       k + (rules.filter (fun r => r.client == old_ip)).length,
       (rules.filter (fun r => r.client == old_ip)).map
         (fun r => ((.Delete : PortForwardingAction), r.description, some r))) := by
  induction rules generalizing k with
  | nil => simp [update_delete_phase]
  | cons rule rest ih =>
    cases hc : rule.client == old_ip with
    | false =>
      simp only [update_delete_phase, hc, Bool.false_eq_true, if_false,
        List.filter_cons, ih]
    | true =>
      simp only [update_delete_phase, hc, if_true, set_port_forwarding_rule,
        rand_str, List.filter_cons, ih, List.length_cons, List.map_cons,
        Prod.mk.injEq]
      refine ⟨trivial, ?_, trivial⟩
      omega

theorem update_add_phase_all_ok (t : Tianyi) (stream : Nat → String)
    (ans : PostRequest → ActionResult)
    (us : List PortForwardingRule) (k : Nat) :
    update_add_phase t stream (fun q => .ok (ans q)) us k =
      (.ok (), k + us.length,
       us.map (fun u => ((.Add : PortForwardingAction), u.description, some u))) := by
  induction us generalizing k with
  | nil => simp [update_add_phase]
  | cons u rest ih =>
    simp only [update_add_phase, set_port_forwarding_rule, rand_str, ih,
      List.length_cons, List.map_cons, Prod.mk.injEq]
    refine ⟨trivial, ?_, trivial⟩
    omega

theorem update_delete_phase_no_match (t : Tianyi) (stream : Nat → String)
    (respond : PostRequest → Except TianyiError ActionResult)
    (old_ip new_ip : String) (rules : List PortForwardingRule) (k : Nat)
    (h : rules.filter (fun r => r.client == old_ip) = []) :
    update_delete_phase t stream respond old_ip new_ip rules k = (.ok [], k, []) := by
  induction rules generalizing k with
  | nil => rfl
  | cons rule rest ih =>
    cases hc : rule.client == old_ip with
    | false =>
      rw [List.filter_cons, hc] at h
      simp only [update_delete_phase, hc, Bool.false_eq_true, if_false]
      exact ih k h
    | true =>
      rw [List.filter_cons, hc] at h
      exact absurd h (by simp)

/-- Claim C1: against any fetched rule list, with every mutation call
succeeding, the run returns success and issues exactly one Delete per rule
whose client equals old_ip, carrying that rule's own description and its
original fields, followed, only after all the deletes, by one Add per
matched rule whose payload is the original rule with client replaced by
new_ip and protocol, in_port, ex_port, enable and description unchanged; no
call is issued for a non-matching rule. -/
theorem update_issues_deletes_then_adds (t : Tianyi) (stream : Nat → String)
    (k : Nat) (d : PortForwardingData) (ans : PostRequest → ActionResult)
    (old_ip new_ip : String) :
    update_port_forwarding_rule t stream k (fun _ => .ok d) (fun q => .ok (ans q))
        old_ip new_ip =
      { result := .ok ()
        session := t
        rng := k + 1 + 2 * ((rulesOf d).filter (fun r => r.client == old_ip)).length
        calls :=
          ((rulesOf d).filter (fun r => r.client == old_ip)).map
            (fun r => ((.Delete : PortForwardingAction), r.description, some r)) ++
          ((rulesOf d).filter (fun r => r.client == old_ip)).map
            (fun r => ((.Add : PortForwardingAction), r.description,
                       some { r with client := new_ip })) } := by
  simp only [update_port_forwarding_rule, get_port_forwarding_rules,
    port_forwarding, rand_str, update_delete_phase_all_ok, update_add_phase_all_ok,
    List.map_map, List.length_map]
  refine congrArg₂ (fun a b => UpdateOutcome.mk (.ok ()) t a b) ?_ ?_
  · omega
  · rfl

/-- Claim C5: when no fetched rule's client equals old_ip, the run issues no
Delete and no Add call at all, for any mutation oracle, and returns success
having consumed only the fetch. -/
theorem update_no_match_noop (t : Tianyi) (stream : Nat → String) (k : Nat)
    (d : PortForwardingData)
    (respond : PostRequest → Except TianyiError ActionResult)
    (old_ip new_ip : String)
    (h : (rulesOf d).filter (fun r => r.client == old_ip) = []) :
    update_port_forwarding_rule t stream k (fun _ => .ok d) respond old_ip new_ip =
      { result := .ok (), session := t, rng := k + 1, calls := [] } := by
  simp only [update_port_forwarding_rule, get_port_forwarding_rules,
    port_forwarding, rand_str,
    update_delete_phase_no_match t stream respond old_ip new_ip (rulesOf d) (k + 1) h,
    update_add_phase, List.append_nil]

/-- Witness for claim C5: a snapshot holding one rule for another client; a
failing mutation oracle is never consulted. -/
theorem update_no_match_noop_witness :
    update_port_forwarding_rule tSample sampleStream 0 (fun _ => .ok sampleData)
        (fun _ => .error (.transport "down")) "10.0.0.9" "10.0.0.10" =
      { result := .ok (), session := tSample, rng := 1, calls := [] } :=
  update_no_match_noop tSample sampleStream 0 sampleData
    (fun _ => .error (.transport "down")) "10.0.0.9" "10.0.0.10" (by decide)

/-- Claim C6: whenever the mutation response parses as an ActionResult, the
call returns the retVal integer exactly as received, for every action,
description and optional rule payload; no value is compared against a
success code and none is turned into an error. -/
theorem set_rule_returns_retval (t : Tianyi) (stream : Nat → String) (k : Nat)
    (respond : PostRequest → Except TianyiError ActionResult)
    (action : PortForwardingAction) (srvname : String)
    (rule : Option PortForwardingRule) (v : Int)
    (h : respond (set_rule_request t action srvname rule (stream k)) =
      .ok { ret_val := v }) :
    (set_port_forwarding_rule t stream k respond action srvname rule).1 =
      .ok { ret_val := v } := by
  simp only [set_port_forwarding_rule, rand_str, h]

/-- Witness for claim C6 at the arbitrary router code 7. -/
theorem set_rule_returns_retval_witness :
    (set_port_forwarding_rule tSample sampleStream 0 (fun _ => .ok { ret_val := 7 })
        .Add "web" none).1 = .ok { ret_val := 7 } :=
  set_rule_returns_retval tSample sampleStream 0 (fun _ => .ok { ret_val := 7 })
    .Add "web" none 7 rfl

/-! Session pass-through of each operation. -/

theorem logout_session_eq (t : Tianyi) (stream : Nat → String) (k : Nat)
    (lo : PostRequest → Except TianyiError Response) :
    (logout t stream k lo).2.1 = t := by
  unfold logout rand_str
  split
  split
  · rfl
  · split <;> rfl

theorem logout_rng_eq (t : Tianyi) (stream : Nat → String) (k : Nat)
    (lo : PostRequest → Except TianyiError Response) :
    (logout t stream k lo).2.2 = k + 1 := by
  unfold logout rand_str
  split
  rename_i x r k2 heq
  injection heq with h1 h2
  subst h2
  split
  · rfl
  · split <;> rfl

theorem get_rules_session_eq (t : Tianyi) (stream : Nat → String) (k : Nat)
    (pf : GetRequest → Except TianyiError PortForwardingData) :
    (get_port_forwarding_rules t stream k pf).2.1 = t := by
  unfold get_port_forwarding_rules port_forwarding rand_str
  split <;> rename_i heq <;> exact congrArg (fun x => x.2.1) heq.symm

theorem update_session_eq (t : Tianyi) (stream : Nat → String) (k : Nat)
    (pf : GetRequest → Except TianyiError PortForwardingData)
    (sr : PostRequest → Except TianyiError ActionResult)
    (old_ip new_ip : String) :
    (update_port_forwarding_rule t stream k pf sr old_ip new_ip).session = t := by
  unfold update_port_forwarding_rule
  split
  · rfl
  · split
    · rfl
    · split
      rfl

/-- Claim C8: every read and mutation operation carries the cache-busting
parameter, the underscore key, holding the stringified pseudo-random draw at
the current counter; each call consumes exactly the draw at its counter and
advances the counter by one, so consecutive calls take their draws from
distinct positions of the stream and no draw is reused. -/
theorem cache_busting_fresh (t : Tianyi) (stream : Nat → String) (k : Nat)
    (g : GetRequest → Except TianyiError GatewayInfo)
    (pf : GetRequest → Except TianyiError PortForwardingData)
    (sr : PostRequest → Except TianyiError ActionResult)
    (lo : PostRequest → Except TianyiError Response)
    (action : PortForwardingAction) (srvname : String)
    (rule : Option PortForwardingRule) :
    (gwinfo t stream k g = (g (gwinfo_request t (stream k)), t, k + 1) ∧
      ("_", stream k) ∈ (gwinfo_request t (stream k)).query) ∧
    (port_forwarding t stream k pf =
        (pf (port_forwarding_request t (stream k)), t, k + 1) ∧
      ("_", stream k) ∈ (port_forwarding_request t (stream k)).query) ∧
    (set_port_forwarding_rule t stream k sr action srvname rule =
        (sr (set_rule_request t action srvname rule (stream k)), t, k + 1) ∧
      ("_", stream k) ∈ (set_rule_request t action srvname rule (stream k)).form) ∧
    ((logout t stream k lo).2.2 = k + 1 ∧
      ("_", stream k) ∈ (logout_request t (stream k)).form) := by
  refine ⟨⟨rfl, ?_⟩, ⟨rfl, ?_⟩, ⟨rfl, ?_⟩, ⟨logout_rng_eq t stream k lo, ?_⟩⟩
  · simp [gwinfo_request]
  · simp [port_forwarding_request]
  · simp [set_rule_request]
  · simp [logout_request]

/-- Claim C9: logout POSTs exactly the token and the cache-busting field,
returns success exactly when the HTTP status is a success status and the
Failed-to-logout error otherwise, and its outcome never depends on the
response body. -/
theorem logout_status_only (t : Tianyi) (stream : Nat → String) (k : Nat)
    (respond : PostRequest → Except TianyiError Response) (resp : Response)
    (h : respond (logout_request t (stream k)) = .ok resp) :
    ((logout t stream k respond).1 =
      if is_success resp.status then .ok ()
      else .error (.transport "Failed to logout")) ∧
    ((logout_request t (stream k)).form = [("token", t.token), ("_", stream k)]) ∧
    (∀ (respond2 : PostRequest → Except TianyiError Response) (resp2 : Response),
      respond2 (logout_request t (stream k)) = .ok resp2 →
      resp2.status = resp.status →
      (logout t stream k respond2).1 = (logout t stream k respond).1) := by
  refine ⟨?_, rfl, ?_⟩
  · simp only [logout, rand_str, h]
    split <;> rfl
  · intro respond2 resp2 h2 hstatus
    simp only [logout, rand_str, h, h2, hstatus]

/-- Witness for claim C9 at a concrete 200 response. -/
theorem logout_status_only_witness :
    ((logout tSample sampleStream 0 (fun _ => .ok respSample)).1 =
      if is_success respSample.status then .ok ()
      else .error (.transport "Failed to logout")) ∧
    ((logout_request tSample (sampleStream 0)).form =
      [("token", tSample.token), ("_", sampleStream 0)]) ∧
    (∀ (respond2 : PostRequest → Except TianyiError Response) (resp2 : Response),
      respond2 (logout_request tSample (sampleStream 0)) = .ok resp2 →
      resp2.status = respSample.status →
      (logout tSample sampleStream 0 respond2).1 =
        (logout tSample sampleStream 0 (fun _ => .ok respSample)).1) :=
  logout_status_only tSample sampleStream 0 (fun _ => .ok respSample) respSample rfl

/-- Claim C10: no operation of a constructed client changes the url or the
token of its session: logout, gwinfo, port_forwarding,
get_port_forwarding_rules, set_port_forwarding_rule and
update_port_forwarding_rule all leave both fields as login established
them, whatever the transport answers. -/
theorem session_immutable (t : Tianyi) (stream : Nat → String) (k : Nat)
    (g : GetRequest → Except TianyiError GatewayInfo)
    (pf : GetRequest → Except TianyiError PortForwardingData)
    (sr : PostRequest → Except TianyiError ActionResult)
    (lo : PostRequest → Except TianyiError Response)
    (action : PortForwardingAction) (srvname : String)
    (rule : Option PortForwardingRule) (old_ip new_ip : String) :
    ((logout t stream k lo).2.1.url = t.url ∧
      (logout t stream k lo).2.1.token = t.token) ∧
    ((gwinfo t stream k g).2.1.url = t.url ∧
      (gwinfo t stream k g).2.1.token = t.token) ∧
    ((port_forwarding t stream k pf).2.1.url = t.url ∧
      (port_forwarding t stream k pf).2.1.token = t.token) ∧
    ((get_port_forwarding_rules t stream k pf).2.1.url = t.url ∧
      (get_port_forwarding_rules t stream k pf).2.1.token = t.token) ∧
    ((set_port_forwarding_rule t stream k sr action srvname rule).2.1.url = t.url ∧
      (set_port_forwarding_rule t stream k sr action srvname rule).2.1.token = t.token) ∧
    ((update_port_forwarding_rule t stream k pf sr old_ip new_ip).session.url = t.url ∧
      (update_port_forwarding_rule t stream k pf sr old_ip new_ip).session.token = t.token) := by
  refine ⟨⟨?_, ?_⟩, ⟨rfl, rfl⟩, ⟨rfl, rfl⟩, ⟨?_, ?_⟩, ⟨rfl, rfl⟩, ⟨?_, ?_⟩⟩
  · rw [logout_session_eq]
  · rw [logout_session_eq]
  · rw [get_rules_session_eq]
  · rw [get_rules_session_eq]
  · rw [update_session_eq]
  · rw [update_session_eq]

end TianyiApi
